import Mathlib

/-
Verification of the local constant propagation engine
(opt/constant_propagation/LocalConstProp.cpp).

The abstract value lattice and its environment live in GlobalConstProp.h,
which is outside the given sources; those parts are modelled from the
specification (sections 3 and 4.1).  Everything else is a direct shallow
embedding of LocalConstProp.cpp: machine integers become Int with explicit
range side conditions where they matter, the fatal assertion in eval_if
becomes the error case of Except, and the mutable ConstPropEnvironment
becomes explicit state passing.
-/

namespace RedexLCP

/-- Opcodes of the IR relevant to local constant propagation.  IROpcode.h is
external; the constructor set covers every opcode named in LocalConstProp.cpp
plus two representatives for the default analyzer case (one with and one
without a destination). -/
inductive IROpcode where
  | OPCODE_CONST
  | OPCODE_CONST_WIDE
  | OPCODE_MOVE
  | OPCODE_MOVE_OBJECT
  | OPCODE_MOVE_WIDE
  | OPCODE_CMPL_FLOAT
  | OPCODE_CMPG_FLOAT
  | OPCODE_CMPL_DOUBLE
  | OPCODE_CMPG_DOUBLE
  | OPCODE_CMP_LONG
  | OPCODE_ADD_INT_LIT16
  | OPCODE_ADD_INT_LIT8
  | OPCODE_IF_EQ
  | OPCODE_IF_NE
  | OPCODE_IF_EQZ
  | OPCODE_IF_NEZ
  | OPCODE_IF_LT
  | OPCODE_IF_LTZ
  | OPCODE_IF_LE
  | OPCODE_IF_LEZ
  | OPCODE_IF_GT
  | OPCODE_IF_GTZ
  | OPCODE_IF_GE
  | OPCODE_IF_GEZ
  | OPCODE_GOTO
  | OPCODE_NOP
  | OPCODE_ADD_INT
  | OPCODE_RETURN_VOID
  deriving DecidableEq

/-- Shallow model of IRInstruction: opcode, source registers, one destination
register slot, an embedded literal, the number of destinations (dests_size in
the source) and the width flag of the destination.  Branch targets are not a
field of IRInstruction in the IR (they live in the surrounding instruction
list), so they do not appear here. -/
structure IRInstruction where
  opcode : IROpcode
  srcs : List Nat
  dest : Nat
  literal : Int
  dests_size : Nat
  dest_is_wide : Bool
  deriving DecidableEq

/-- Accessor src(i) of IRInstruction. -/
def IRInstruction.src (i : IRInstruction) (k : Nat) : Nat :=
  i.srcs.getD k 0

/-- Accessor srcs_size() of IRInstruction. -/
def IRInstruction.srcs_size (i : IRInstruction) : Nat :=
  i.srcs.length

/-- Accessor get_literal() of IRInstruction. -/
def IRInstruction.get_literal (i : IRInstruction) : Int :=
  i.literal

/-- The C++ constructor IRInstruction(op): a fresh instruction holding only
the opcode, with every other field at its default. -/
def IRInstruction.mkNew (op : IROpcode) : IRInstruction :=
  { opcode := op, srcs := [], dest := 0, literal := 0,
    dests_size := 0, dest_is_wide := false }

/-- Setter set_literal of IRInstruction. -/
def IRInstruction.set_literal (i : IRInstruction) (v : Int) : IRInstruction :=
  { i with literal := v }

/-- Setter set_dest of IRInstruction. -/
def IRInstruction.set_dest (i : IRInstruction) (d : Nat) : IRInstruction :=
  { i with dest := d }

def INT32_MAX : Int := 2 ^ 31 - 1

def INT32_MIN : Int := -(2 ^ 31)

def INT64_MAX : Int := 2 ^ 63 - 1

def INT64_MIN : Int := -(2 ^ 63)

/-- Modelled from the spec: the abstract value lattice of GlobalConstProp.h
(not part of the given sources), section 3 of the spec: tagged union
Top, Bottom, NarrowConstant(i32), WideConstant(i64),
Interval(min, max, optional exact). -/
inductive CValue where
  | top
  | bottom
  | narrowConst (v : Int)
  | wideConst (v : Int)
  | interval (lo hi : Int) (exact : Option Int)
  deriving DecidableEq

/-- Modelled from the spec: min_element of a SignedConstantDomain.  Top spans
the whole signed 64-bit range; bottom is the empty interval. -/
def CValue.min_element : CValue → Int
  | .top => INT64_MIN
  | .bottom => INT64_MAX
  | .narrowConst v => v
  | .wideConst v => v
  | .interval lo _ _ => lo

/-- Modelled from the spec: max_element of a SignedConstantDomain. -/
def CValue.max_element : CValue → Int
  | .top => INT64_MAX
  | .bottom => INT64_MIN
  | .narrowConst v => v
  | .wideConst v => v
  | .interval _ hi _ => hi

/-- Modelled from the spec: the constant_domain() component of a
SignedConstantDomain; some c exactly when the abstract value is pinned to the
exact constant c (is_value / value().constant() in the source). -/
def CValue.constant_value : CValue → Option Int
  | .top => none
  | .bottom => none
  | .narrowConst v => some v
  | .wideConst v => some v
  | .interval _ _ e => e

/-- Modelled from the spec: the environment maps registers to abstract
values, with a whole-environment unreachability flag (is_bottom in section
4.1).  In this model get reads the register map; the bottom flag is only
consulted by eval_if, exactly as in LocalConstProp.cpp. -/
structure ConstPropEnvironment where
  bottomFlag : Bool
  regs : Nat → CValue

/-- Environment operation is_bottom() (spec section 4.1). -/
def ConstPropEnvironment.is_bottom (s : ConstPropEnvironment) : Bool :=
  s.bottomFlag

/-- Environment operation get(reg) (spec section 4.1). -/
def ConstPropEnvironment.get (s : ConstPropEnvironment) (r : Nat) : CValue :=
  s.regs r

namespace ConstPropEnvUtil

/-- Modelled from the spec: write one register of the environment. -/
def set (s : ConstPropEnvironment) (r : Nat) (v : CValue) :
    ConstPropEnvironment :=
  { s with regs := fun x => if x = r then v else s.regs x }

/-- Environment operation set_narrow(reg, i32) (spec section 4.1). -/
def set_narrow (s : ConstPropEnvironment) (r : Nat) (v : Int) :
    ConstPropEnvironment :=
  set s r (.narrowConst v)

/-- Environment operation set_wide(reg, i64) (spec section 4.1). -/
def set_wide (s : ConstPropEnvironment) (r : Nat) (v : Int) :
    ConstPropEnvironment :=
  set s r (.wideConst v)

/-- Environment operation set_top(reg, width) (spec section 4.1); the width
flag selects the slot shape but the stored lattice value is Top either way. -/
def set_top (s : ConstPropEnvironment) (r : Nat) (isWide : Bool) :
    ConstPropEnvironment :=
  set s r .top

/-- Environment operation is_narrow_constant(reg) (spec section 4.1). -/
def is_narrow_constant (s : ConstPropEnvironment) (r : Nat) : Bool :=
  match s.regs r with
  | .narrowConst _ => true
  | _ => false

/-- Environment operation is_wide_constant(reg) (spec section 4.1). -/
def is_wide_constant (s : ConstPropEnvironment) (r : Nat) : Bool :=
  match s.regs r with
  | .wideConst _ => true
  | _ => false

/-- Environment operation get_narrow(reg) (spec section 4.1); only called
after is_narrow_constant, the default 0 is never observed. -/
def get_narrow (s : ConstPropEnvironment) (r : Nat) : Int :=
  match s.regs r with
  | .narrowConst v => v
  | _ => 0

/-- Environment operation get_wide(reg) (spec section 4.1). -/
def get_wide (s : ConstPropEnvironment) (r : Nat) : Int :=
  match s.regs r with
  | .wideConst v => v
  | _ => 0

end ConstPropEnvUtil

/-- Modelled from the spec: the narrow overload of get_constant_value from
constant_propagation_impl (LocalConstProp.h, outside the given sources): an
exact constant of matching (narrow) width, if the register holds one. -/
def get_constant_value_narrow (s : ConstPropEnvironment) (r : Nat) :
    Option Int :=
  if ConstPropEnvUtil.is_narrow_constant s r then
    some (ConstPropEnvUtil.get_narrow s r)
  else none

/-- Modelled from the spec: the wide overload of get_constant_value. -/
def get_constant_value_wide (s : ConstPropEnvironment) (r : Nat) :
    Option Int :=
  if ConstPropEnvUtil.is_wide_constant s r then
    some (ConstPropEnvUtil.get_wide s r)
  else none

/-- An IEEE value as the compare sees it after bit reinterpretation: NaN, or
an ordered non-NaN value.  The finite set of non-NaN float or double values
(with the two zeros identified, as operator== identifies them) order-embeds
into the rationals, so a value of this type represents any such operand
faithfully for the comparisons the source performs. -/
inductive FPVal where
  | nan
  | fin (q : ℚ)
  deriving DecidableEq

/-- std::isnan on the reinterpreted operand. -/
def FPVal.isnan : FPVal → Bool
  | .nan => true
  | .fin _ => false

/-- The C++ comparison l_val > r_val: false whenever either side is NaN. -/
def fgt : FPVal → FPVal → Bool
  | .fin a, .fin b => decide (b < a)
  | _, _ => false

/-- The C++ comparison l_val == r_val: false whenever either side is NaN. -/
def feq : FPVal → FPVal → Bool
  | .fin a, .fin b => decide (a = b)
  | _, _ => false

/-- Modelled from the spec: reinterpret_bits into float and double (design
note on bit-pattern reinterpretation).  Decoding IEEE-754 bit patterns is a
property of the hardware floating types, not of this repository, so the two
decoders are abstract parameters; for CMP_LONG the source instantiates
reinterpret_bits at identical types, where it is the identity, so no decoder
is involved there. -/
structure FloatModel where
  decodeFloat : Int → FPVal
  decodeDouble : Int → FPVal

/-- is_compare_floating from LocalConstProp.cpp. -/
def is_compare_floating (op : IROpcode) : Bool :=
  match op with
  | .OPCODE_CMPG_DOUBLE | .OPCODE_CMPL_DOUBLE
  | .OPCODE_CMPG_FLOAT | .OPCODE_CMPL_FLOAT => true
  | _ => false

/-- is_less_than_bias from LocalConstProp.cpp. -/
def is_less_than_bias (op : IROpcode) : Bool :=
  match op with
  | .OPCODE_CMPL_DOUBLE | .OPCODE_CMPL_FLOAT => true
  | _ => false

/-- analyze_compare from LocalConstProp.cpp, with the template parameters
realised as the constant reader for the Stored width and the decoder for the
Operand type. -/
def analyze_compare (decode : Int → FPVal)
    (getVal : ConstPropEnvironment → Nat → Option Int)
    (inst : IRInstruction) (state : ConstPropEnvironment) :
    ConstPropEnvironment :=
  match getVal state (inst.src 0), getVal state (inst.src 1) with
  | some left_value, some right_value =>
      let l_val := decode left_value
      let r_val := decode right_value
      let result : Int :=
        if is_compare_floating inst.opcode &&
            (l_val.isnan || r_val.isnan) then
          if is_less_than_bias inst.opcode then -1 else 1
        else if fgt l_val r_val then 1
        else if feq l_val r_val then 0
        else -1
      ConstPropEnvUtil.set_narrow state inst.dest result
  | _, _ => ConstPropEnvUtil.set_top state inst.dest false

/-- addition_out_of_bounds from LocalConstProp.cpp: the pre-check against the
int32 limits adjusted by one operand. -/
def addition_out_of_bounds (a b : Int) : Bool :=
  decide ((0 < b ∧ INT32_MAX - b < a) ∨ (b < 0 ∧ a < INT32_MIN - b))

/-- The configuration record consumed from the driver (spec section 6). -/
structure Config where
  fold_arithmetic : Bool
  replace_moves_with_consts : Bool
  deriving DecidableEq

/-- analyze_non_branch from LocalConstProp.cpp: shared transfer function for
moves and immediate arithmetic; a move is the identity transform. -/
def analyze_non_branch (inst : IRInstruction)
    (state : ConstPropEnvironment) (is_wide : Bool)
    (value_transform : Int → Option Int)
    (wide_value_transform : Int → Option Int) : ConstPropEnvironment :=
  let src := inst.src 0
  let dst := inst.dest
  if is_wide = false ∧ ConstPropEnvUtil.is_narrow_constant state src then
    match value_transform (ConstPropEnvUtil.get_narrow state src) with
    | none => ConstPropEnvUtil.set_top state dst is_wide
    | some value => ConstPropEnvUtil.set_narrow state dst value
  else if is_wide = true ∧ ConstPropEnvUtil.is_wide_constant state src then
    match wide_value_transform (ConstPropEnvUtil.get_wide state src) with
    | none => ConstPropEnvUtil.set_top state dst is_wide
    | some value => ConstPropEnvUtil.set_wide state dst value
  else ConstPropEnvUtil.set_top state dst is_wide

/-- The identity transform, the C++ default argument of analyze_non_branch. -/
def idTransform : Int → Option Int := fun v => some v

/-- The default arm of the analyzer switch: an opcode with a destination
marks it Top at its width; one without a destination leaves the environment
untouched. -/
def analyze_default (inst : IRInstruction)
    (state : ConstPropEnvironment) : ConstPropEnvironment :=
  if inst.dests_size ≠ 0 then
    ConstPropEnvUtil.set_top state inst.dest inst.dest_is_wide
  else state

/-- LocalConstantPropagation::analyze_instruction from LocalConstProp.cpp.
The fallthrough from the add-with-immediate case (folding disabled) into the
default case is rendered by calling the default arm there. -/
def analyze_instruction (cfg : Config) (fm : FloatModel)
    (inst : IRInstruction) (state : ConstPropEnvironment) :
    ConstPropEnvironment :=
  match inst.opcode with
  | .OPCODE_CONST =>
      ConstPropEnvUtil.set_narrow state inst.dest inst.get_literal
  | .OPCODE_CONST_WIDE =>
      ConstPropEnvUtil.set_wide state inst.dest inst.get_literal
  | .OPCODE_MOVE | .OPCODE_MOVE_OBJECT =>
      analyze_non_branch inst state false idTransform idTransform
  | .OPCODE_MOVE_WIDE =>
      analyze_non_branch inst state true idTransform idTransform
  | .OPCODE_CMPL_FLOAT | .OPCODE_CMPG_FLOAT =>
      analyze_compare fm.decodeFloat get_constant_value_narrow inst state
  | .OPCODE_CMPL_DOUBLE | .OPCODE_CMPG_DOUBLE =>
      analyze_compare fm.decodeDouble get_constant_value_wide inst state
  | .OPCODE_CMP_LONG =>
      analyze_compare (fun v => .fin (v : ℚ)) get_constant_value_wide
        inst state
  | .OPCODE_ADD_INT_LIT16 | .OPCODE_ADD_INT_LIT8 =>
      if cfg.fold_arithmetic then
        let lit := inst.get_literal
        analyze_non_branch inst state false
          (fun v =>
            if addition_out_of_bounds lit v then none else some (v + lit))
          idTransform
      else analyze_default inst state
  | _ => analyze_default inst state

/-- The left operand domain read by eval_if (line 289 of the source). -/
def scdLeft (insn : IRInstruction) (state : ConstPropEnvironment) : CValue :=
  state.get (insn.src 0)

/-- The right operand domain read by eval_if: the second source when present,
otherwise the exact narrow constant 0 (lines 290 to 292 of the source). -/
def scdRight (insn : IRInstruction) (state : ConstPropEnvironment) : CValue :=
  if 1 < insn.srcs_size then state.get (insn.src 1)
  else CValue.narrowConst 0

/-- eval_if from LocalConstProp.cpp.  The fatal always_assert_log on a
non-branch opcode is the error case; every normal outcome is ok, carrying
some true (always taken), some false (never taken) or none (undetermined). -/
def eval_if (insn : IRInstruction) (state : ConstPropEnvironment) :
    Except Unit (Option Bool) :=
  if state.is_bottom then .ok none
  else
    let scd_left := scdLeft insn state
    let scd_right := scdRight insn state
    match insn.opcode with
    | .OPCODE_IF_EQ | .OPCODE_IF_NE | .OPCODE_IF_EQZ | .OPCODE_IF_NEZ =>
        match scd_left.constant_value, scd_right.constant_value with
        | some l, some r =>
            if insn.opcode = .OPCODE_IF_EQ ∨ insn.opcode = .OPCODE_IF_EQZ
            then .ok (some (decide (l = r)))
            else .ok (some (decide (l ≠ r)))
        | _, _ => .ok none
    | .OPCODE_IF_LE | .OPCODE_IF_LEZ =>
        if scd_left.max_element ≤ scd_right.min_element then .ok (some true)
        else if scd_right.max_element < scd_left.min_element then
          .ok (some false)
        else .ok none
    | .OPCODE_IF_LT | .OPCODE_IF_LTZ =>
        if scd_left.max_element < scd_right.min_element then .ok (some true)
        else if scd_right.max_element ≤ scd_left.min_element then
          .ok (some false)
        else .ok none
    | .OPCODE_IF_GE | .OPCODE_IF_GEZ =>
        if scd_right.max_element ≤ scd_left.min_element then .ok (some true)
        else if scd_left.max_element < scd_right.min_element then
          .ok (some false)
        else .ok none
    | .OPCODE_IF_GT | .OPCODE_IF_GTZ =>
        if scd_right.max_element < scd_left.min_element then .ok (some true)
        else if scd_left.max_element ≤ scd_right.min_element then
          .ok (some false)
        else .ok none
    | _ => .error ()

/-- The relevant mutable members of LocalConstantPropagation: the deferred
replacement records and the two counters. -/
structure LCPState where
  insn_replacements : List (IRInstruction × IRInstruction)
  branch_propagated : Nat
  materialized_consts : Nat
  deriving DecidableEq

/-- LocalConstantPropagation::simplify_branch from LocalConstProp.cpp. -/
def simplify_branch (st : LCPState) (inst : IRInstruction)
    (current_state : ConstPropEnvironment) : Except Unit LCPState :=
  match eval_if inst current_state with
  | .error e => .error e
  | .ok none => .ok st
  | .ok (some b) =>
      .ok { st with
        branch_propagated := st.branch_propagated + 1,
        insn_replacements := st.insn_replacements ++
          [(inst,
            IRInstruction.mkNew
              (if b then .OPCODE_GOTO else .OPCODE_NOP))] }

/-- LocalConstantPropagation::simplify_non_branch from LocalConstProp.cpp:
current_state already holds the value of the destination after the
instruction, so the constant is read from the destination register. -/
def simplify_non_branch (st : LCPState) (inst : IRInstruction)
    (current_state : ConstPropEnvironment) (is_wide : Bool) : LCPState :=
  let dst := inst.dest
  if is_wide = false ∧ ConstPropEnvUtil.is_narrow_constant current_state dst
  then
    let value := ConstPropEnvUtil.get_narrow current_state dst
    let replacement :=
      ((IRInstruction.mkNew .OPCODE_CONST).set_literal value).set_dest dst
    { st with
      insn_replacements := st.insn_replacements ++ [(inst, replacement)],
      materialized_consts := st.materialized_consts + 1 }
  else if is_wide = true ∧
      ConstPropEnvUtil.is_wide_constant current_state dst then
    let value := ConstPropEnvUtil.get_wide current_state dst
    let replacement :=
      ((IRInstruction.mkNew .OPCODE_CONST_WIDE).set_literal value).set_dest
        dst
    { st with
      insn_replacements := st.insn_replacements ++ [(inst, replacement)],
      materialized_consts := st.materialized_consts + 1 }
  else st

/-- LocalConstantPropagation::simplify_instruction from LocalConstProp.cpp. -/
def simplify_instruction (cfg : Config) (st : LCPState)
    (inst : IRInstruction) (current_state : ConstPropEnvironment) :
    Except Unit LCPState :=
  match inst.opcode with
  | .OPCODE_MOVE =>
      .ok (if cfg.replace_moves_with_consts then
        simplify_non_branch st inst current_state false
      else st)
  | .OPCODE_MOVE_WIDE =>
      .ok (if cfg.replace_moves_with_consts then
        simplify_non_branch st inst current_state true
      else st)
  | .OPCODE_IF_EQ | .OPCODE_IF_NE
  | .OPCODE_IF_LT | .OPCODE_IF_GE | .OPCODE_IF_GT | .OPCODE_IF_LE
  | .OPCODE_IF_LTZ | .OPCODE_IF_GEZ | .OPCODE_IF_GTZ | .OPCODE_IF_LEZ
  | .OPCODE_IF_EQZ | .OPCODE_IF_NEZ =>
      simplify_branch st inst current_state
  | .OPCODE_ADD_INT_LIT16 | .OPCODE_ADD_INT_LIT8 =>
      .ok (if cfg.fold_arithmetic then
        simplify_non_branch st inst current_state false
      else st)
  | _ => .ok st

/-- The twelve conditional branch opcodes handled by eval_if. -/
def isIfOpcode (op : IROpcode) : Bool :=
  match op with
  | .OPCODE_IF_EQ | .OPCODE_IF_NE | .OPCODE_IF_EQZ | .OPCODE_IF_NEZ
  | .OPCODE_IF_LT | .OPCODE_IF_LTZ | .OPCODE_IF_LE | .OPCODE_IF_LEZ
  | .OPCODE_IF_GT | .OPCODE_IF_GTZ | .OPCODE_IF_GE | .OPCODE_IF_GEZ => true
  | _ => false

/-- The opcodes the analyzer switch handles specially under a given
configuration; every other opcode reaches the default arm.  Add with
immediate is handled exactly when arithmetic folding is enabled. -/
def handled_opcode (cfg : Config) (op : IROpcode) : Bool :=
  match op with
  | .OPCODE_CONST | .OPCODE_CONST_WIDE
  | .OPCODE_MOVE | .OPCODE_MOVE_OBJECT | .OPCODE_MOVE_WIDE
  | .OPCODE_CMPL_FLOAT | .OPCODE_CMPG_FLOAT
  | .OPCODE_CMPL_DOUBLE | .OPCODE_CMPG_DOUBLE
  | .OPCODE_CMP_LONG => true
  | .OPCODE_ADD_INT_LIT16 | .OPCODE_ADD_INT_LIT8 => cfg.fold_arithmetic
  | _ => false

end RedexLCP

namespace RedexLCP

/-- C1: for every ordering branch (IF_LT, IF_LE, IF_GT, IF_GE and their
zero-compared forms, whose right side is the exact interval [0,0]) on a
non-bottom environment, eval_if classifies by the asymmetric bound rules:
less-than is always taken iff left.max < right.min and never taken iff
left.min is at least right.max; less-or-equal is always taken iff
left.max is at most right.min and never taken iff left.min exceeds
right.max; greater-than is always taken iff left.min exceeds right.max and
never taken iff left.max is at most right.min; greater-or-equal is always
taken iff left.min is at least right.max and never taken iff
left.max < right.min; in every remaining case the outcome is
undetermined. -/
theorem c1_ordering_branch_rules (insn : IRInstruction)
    (state : ConstPropEnvironment)
    (hb : state.is_bottom = false)
    (hl : (scdLeft insn state).min_element ≤ (scdLeft insn state).max_element)
    (hr : (scdRight insn state).min_element ≤
      (scdRight insn state).max_element) :
    ((insn.opcode = .OPCODE_IF_LT ∨ insn.opcode = .OPCODE_IF_LTZ) →
      ((eval_if insn state = .ok (some true) ↔
          (scdLeft insn state).max_element <
            (scdRight insn state).min_element) ∧
       (eval_if insn state = .ok (some false) ↔
          (scdRight insn state).max_element ≤
            (scdLeft insn state).min_element) ∧
       (eval_if insn state = .ok none ↔
          ¬ (scdLeft insn state).max_element <
              (scdRight insn state).min_element ∧
          ¬ (scdRight insn state).max_element ≤
              (scdLeft insn state).min_element))) ∧
    ((insn.opcode = .OPCODE_IF_LE ∨ insn.opcode = .OPCODE_IF_LEZ) →
      ((eval_if insn state = .ok (some true) ↔
          (scdLeft insn state).max_element ≤
            (scdRight insn state).min_element) ∧
       (eval_if insn state = .ok (some false) ↔
          (scdRight insn state).max_element <
            (scdLeft insn state).min_element) ∧
       (eval_if insn state = .ok none ↔
          ¬ (scdLeft insn state).max_element ≤
              (scdRight insn state).min_element ∧
          ¬ (scdRight insn state).max_element <
              (scdLeft insn state).min_element))) ∧
    ((insn.opcode = .OPCODE_IF_GT ∨ insn.opcode = .OPCODE_IF_GTZ) →
      ((eval_if insn state = .ok (some true) ↔
          (scdRight insn state).max_element <
            (scdLeft insn state).min_element) ∧
       (eval_if insn state = .ok (some false) ↔
          (scdLeft insn state).max_element ≤
            (scdRight insn state).min_element) ∧
       (eval_if insn state = .ok none ↔
          ¬ (scdRight insn state).max_element <
              (scdLeft insn state).min_element ∧
          ¬ (scdLeft insn state).max_element ≤
              (scdRight insn state).min_element))) ∧
    ((insn.opcode = .OPCODE_IF_GE ∨ insn.opcode = .OPCODE_IF_GEZ) →
      ((eval_if insn state = .ok (some true) ↔
          (scdRight insn state).max_element ≤
            (scdLeft insn state).min_element) ∧
       (eval_if insn state = .ok (some false) ↔
          (scdLeft insn state).max_element <
            (scdRight insn state).min_element) ∧
       (eval_if insn state = .ok none ↔
          ¬ (scdRight insn state).max_element ≤
              (scdLeft insn state).min_element ∧
          ¬ (scdLeft insn state).max_element <
              (scdRight insn state).min_element))) := by
  refine ⟨fun hop => ?_, fun hop => ?_, fun hop => ?_, fun hop => ?_⟩ <;>
    rcases hop with h | h <;>
    (simp only [eval_if, hb, Bool.false_eq_true, if_false, h]
     split_ifs with h1 h2 <;> simp_all <;> omega)

/-- Witness for C1: with both operands the interval [5,5], less-than is
never taken, less-or-equal always taken, greater-than never taken and
greater-or-equal always taken. -/
theorem c1_ordering_branch_rules_witness :
    eval_if
        { opcode := .OPCODE_IF_LT, srcs := [0, 1], dest := 2, literal := 0,
          dests_size := 0, dest_is_wide := false }
        ⟨false, fun _ => .interval 5 5 none⟩ = .ok (some false) ∧
    eval_if
        { opcode := .OPCODE_IF_LE, srcs := [0, 1], dest := 2, literal := 0,
          dests_size := 0, dest_is_wide := false }
        ⟨false, fun _ => .interval 5 5 none⟩ = .ok (some true) ∧
    eval_if
        { opcode := .OPCODE_IF_GT, srcs := [0, 1], dest := 2, literal := 0,
          dests_size := 0, dest_is_wide := false }
        ⟨false, fun _ => .interval 5 5 none⟩ = .ok (some false) ∧
    eval_if
        { opcode := .OPCODE_IF_GE, srcs := [0, 1], dest := 2, literal := 0,
          dests_size := 0, dest_is_wide := false }
        ⟨false, fun _ => .interval 5 5 none⟩ = .ok (some true) := by
  refine ⟨?_, ?_, ?_, ?_⟩
  · exact ((c1_ordering_branch_rules _ _ (by decide) (by decide) (by decide)).1
      (Or.inl rfl)).2.1.mpr (by decide)
  · exact (((c1_ordering_branch_rules _ _ (by decide) (by decide) (by decide)).2.1
      (Or.inl rfl)).1).mpr (by decide)
  · exact ((c1_ordering_branch_rules _ _ (by decide) (by decide) (by decide)).2.2.1
      (Or.inl rfl)).2.1.mpr (by decide)
  · exact (((c1_ordering_branch_rules _ _ (by decide) (by decide) (by decide)).2.2.2
      (Or.inl rfl)).1).mpr (by decide)

end RedexLCP

namespace RedexLCP

/-- C4: for every equality or inequality branch (IF_EQ, IF_NE and the
zero-compared IF_EQZ, IF_NEZ, whose implicit right operand is the exact
constant 0) on a non-bottom environment, the outcome is determined exactly
when both sides resolve to exact constants, and then the branch is always
taken iff the constants are equal (equality forms) or unequal (inequality
forms) and never taken otherwise; if either side is not an exact constant
the outcome is undetermined, whatever the interval bounds are. -/
theorem c4_equality_branch_rules (insn : IRInstruction)
    (state : ConstPropEnvironment)
    (hb : state.is_bottom = false)
    (hop : insn.opcode = .OPCODE_IF_EQ ∨ insn.opcode = .OPCODE_IF_NE ∨
      insn.opcode = .OPCODE_IF_EQZ ∨ insn.opcode = .OPCODE_IF_NEZ) :
    (∀ l r, (scdLeft insn state).constant_value = some l →
        (scdRight insn state).constant_value = some r →
      eval_if insn state = .ok (some
        (if insn.opcode = .OPCODE_IF_EQ ∨ insn.opcode = .OPCODE_IF_EQZ
         then decide (l = r) else decide (l ≠ r)))) ∧
    (((scdLeft insn state).constant_value = none ∨
        (scdRight insn state).constant_value = none) →
      eval_if insn state = .ok none) := by
  constructor
  · intro l r hcl hcr
    rcases hop with h | h | h | h <;> simp [eval_if, hb, h, hcl, hcr]
  · intro hn
    rcases hop with h | h | h | h <;> rcases hn with hn | hn <;>
      simp [eval_if, hb, h, hn]

/-- Witness for C4: two exact constants 3 compared by IF_EQ give always
taken, and a left operand known only as the interval [1,2] compared by IF_EQ
against the exact constant 5 stays undetermined although the intervals are
disjoint. -/
theorem c4_equality_branch_rules_witness :
    eval_if
        { opcode := .OPCODE_IF_EQ, srcs := [0, 1], dest := 2, literal := 0,
          dests_size := 0, dest_is_wide := false }
        ⟨false, fun _ => .narrowConst 3⟩ = .ok (some true) ∧
    eval_if
        { opcode := .OPCODE_IF_EQ, srcs := [0, 1], dest := 2, literal := 0,
          dests_size := 0, dest_is_wide := false }
        ⟨false, fun r => if r = 0 then .interval 1 2 none
          else .narrowConst 5⟩ = .ok none := by
  constructor
  · have h := (c4_equality_branch_rules
      { opcode := .OPCODE_IF_EQ, srcs := [0, 1], dest := 2, literal := 0,
        dests_size := 0, dest_is_wide := false }
      ⟨false, fun _ => .narrowConst 3⟩ (by decide) (by decide)).1
      3 3 (by decide) (by decide)
    simpa using h
  · exact (c4_equality_branch_rules _ _ (by decide) (by decide)).2
      (Or.inl (by decide))

/-- C5 counterexample: a non-branch opcode (NOP) routed to eval_if on a
bottom environment does not abort with the fatal assertion; it returns the
undetermined outcome, because the bottom test precedes the opcode switch. -/
theorem c5_nonbranch_bottom_counterexample :
    eval_if
        { opcode := .OPCODE_NOP, srcs := [], dest := 0, literal := 0,
          dests_size := 0, dest_is_wide := false }
        ⟨true, fun _ => .top⟩ = .ok none ∧
    eval_if
        { opcode := .OPCODE_NOP, srcs := [], dest := 0, literal := 0,
          dests_size := 0, dest_is_wide := false }
        ⟨true, fun _ => .top⟩ ≠ .error () := by
  refine ⟨rfl, ?_⟩
  intro h
  rw [show eval_if
      { opcode := .OPCODE_NOP, srcs := [], dest := 0, literal := 0,
        dests_size := 0, dest_is_wide := false }
      (⟨true, fun _ => .top⟩ : ConstPropEnvironment) = .ok none
    from rfl] at h
  exact Except.noConfusion h

/-- C5 amended: on a bottom environment eval_if returns undetermined for
every opcode, branch or not; the fatal assertion fires exactly for a
non-branch opcode on a non-bottom environment; and a branch opcode on a
non-bottom environment never faults. -/
theorem c5_bottom_and_fatal_rules (insn : IRInstruction)
    (state : ConstPropEnvironment) :
    (state.is_bottom = true → eval_if insn state = .ok none) ∧
    (state.is_bottom = false → isIfOpcode insn.opcode = false →
      eval_if insn state = .error ()) ∧
    (state.is_bottom = false → isIfOpcode insn.opcode = true →
      eval_if insn state ≠ .error ()) := by
  refine ⟨fun h => by simp [eval_if, h], fun h hnb => ?_, fun h hb2 => ?_⟩
  · cases hop : insn.opcode <;> simp_all [eval_if, isIfOpcode]
  · cases hop : insn.opcode <;> simp_all [eval_if, isIfOpcode] <;>
      first
      | (split_ifs <;> simp)
      | (cases hcl : (scdLeft insn state).constant_value <;>
         cases hcr : (scdRight insn state).constant_value <;>
         simp_all)

/-- Witness for C5 amended: NOP on a bottom environment is undetermined, NOP
on a non-bottom environment hits the fatal assertion, and IF_EQ on a
non-bottom environment does not fault. -/
theorem c5_bottom_and_fatal_rules_witness :
    eval_if
        { opcode := .OPCODE_NOP, srcs := [0], dest := 0, literal := 0,
          dests_size := 0, dest_is_wide := false }
        ⟨true, fun _ => .top⟩ = .ok none ∧
    eval_if
        { opcode := .OPCODE_NOP, srcs := [0], dest := 0, literal := 0,
          dests_size := 0, dest_is_wide := false }
        ⟨false, fun _ => .top⟩ = .error () ∧
    eval_if
        { opcode := .OPCODE_IF_EQ, srcs := [0, 1], dest := 2, literal := 0,
          dests_size := 0, dest_is_wide := false }
        ⟨false, fun _ => .top⟩ ≠ .error () := by
  refine ⟨?_, ?_, ?_⟩
  · exact (c5_bottom_and_fatal_rules _ _).1 (by decide)
  · exact (c5_bottom_and_fatal_rules _ _).2.1 (by decide) (by decide)
  · exact (c5_bottom_and_fatal_rules _ _).2.2 (by decide) (by decide)

end RedexLCP

namespace RedexLCP

/-- The pre-check of addition_out_of_bounds, which never performs the
addition a + b, decides exactly whether a + b leaves the signed 32-bit
range, provided the first argument (the literal at the call site) is itself
in that range. -/
theorem addition_out_of_bounds_decides (a b : Int)
    (ha : INT32_MIN ≤ a ∧ a ≤ INT32_MAX) :
    addition_out_of_bounds a b = true ↔
      (INT32_MAX < a + b ∨ a + b < INT32_MIN) := by
  simp only [addition_out_of_bounds, INT32_MAX, INT32_MIN,
    decide_eq_true_eq] at *
  omega

/-- C2: with fold_arithmetic on, an ADD_INT_LIT8 or ADD_INT_LIT16 whose
source holds the exact narrow constant a folds to the exact constant
a + literal when the sum stays in the signed 32-bit range, and otherwise the
destination becomes Top, never a wrapped value; the pre-check against the
int32 limits adjusted by the literal decides overflow exactly. -/
theorem c2_add_literal_folding (cfg : Config) (fm : FloatModel)
    (inst : IRInstruction) (state : ConstPropEnvironment)
    (hfold : cfg.fold_arithmetic = true)
    (hop : inst.opcode = .OPCODE_ADD_INT_LIT8 ∨
      inst.opcode = .OPCODE_ADD_INT_LIT16)
    (a : Int)
    (hsrc : state.regs (inst.src 0) = .narrowConst a)
    (hlit : INT32_MIN ≤ inst.get_literal ∧ inst.get_literal ≤ INT32_MAX) :
    (addition_out_of_bounds inst.get_literal a = true ↔
      (INT32_MAX < a + inst.get_literal ∨
        a + inst.get_literal < INT32_MIN)) ∧
    (INT32_MIN ≤ a + inst.get_literal ∧ a + inst.get_literal ≤ INT32_MAX →
      analyze_instruction cfg fm inst state =
        ConstPropEnvUtil.set_narrow state inst.dest
          (a + inst.get_literal)) ∧
    ((INT32_MAX < a + inst.get_literal ∨ a + inst.get_literal < INT32_MIN) →
      analyze_instruction cfg fm inst state =
        ConstPropEnvUtil.set_top state inst.dest false) := by
  have hb := addition_out_of_bounds_decides inst.get_literal a hlit
  have hcomm : inst.get_literal + a = a + inst.get_literal := Int.add_comm _ _
  rw [hcomm] at hb
  refine ⟨hb, fun hin => ?_, fun hout => ?_⟩
  · have hfalse : addition_out_of_bounds inst.get_literal a = false := by
      have hnot : ¬ addition_out_of_bounds inst.get_literal a = true := by
        rw [hb]; omega
      simpa using hnot
    rcases hop with h | h <;>
      simp [analyze_instruction, h, hfold, analyze_non_branch,
        ConstPropEnvUtil.is_narrow_constant, hsrc,
        ConstPropEnvUtil.get_narrow, hfalse, Int.add_comm]
  · have htrue : addition_out_of_bounds inst.get_literal a = true := by
      rw [hb]; omega
    rcases hop with h | h <;>
      simp [analyze_instruction, h, hfold, analyze_non_branch,
        ConstPropEnvUtil.is_narrow_constant, hsrc,
        ConstPropEnvUtil.get_narrow, htrue]

/-- Witness for C2: adding the immediate 2 to the exact constant 5 folds to
the exact constant 7, and adding the immediate 1 to the exact constant
INT32_MAX makes the destination Top. -/
theorem c2_add_literal_folding_witness :
    analyze_instruction ⟨true, false⟩ ⟨fun _ => .nan, fun _ => .nan⟩
        { opcode := .OPCODE_ADD_INT_LIT8, srcs := [0], dest := 1,
          literal := 2, dests_size := 1, dest_is_wide := false }
        ⟨false, fun _ => .narrowConst 5⟩ =
      ConstPropEnvUtil.set_narrow ⟨false, fun _ => .narrowConst 5⟩ 1 7 ∧
    analyze_instruction ⟨true, false⟩ ⟨fun _ => .nan, fun _ => .nan⟩
        { opcode := .OPCODE_ADD_INT_LIT8, srcs := [0], dest := 1,
          literal := 1, dests_size := 1, dest_is_wide := false }
        ⟨false, fun _ => .narrowConst 2147483647⟩ =
      ConstPropEnvUtil.set_top
        ⟨false, fun _ => .narrowConst 2147483647⟩ 1 false := by
  constructor
  · exact (c2_add_literal_folding _ _ _ _ (by decide) (Or.inl (by decide))
      5 (by decide) (by decide)).2.1 (by decide)
  · exact (c2_add_literal_folding _ _ _ _ (by decide) (Or.inl (by decide))
      2147483647 (by decide) (by decide)).2.2 (by decide)

end RedexLCP

namespace RedexLCP

/-- C3: for the float and double compares with both sources exact constants
of the declared width, a NaN operand forces the result: the biased-low
variants CMPL_FLOAT and CMPL_DOUBLE write the narrow constant -1 and the
biased-high variants CMPG_FLOAT and CMPG_DOUBLE write 1; with no NaN (and
for CMP_LONG always) the destination becomes -1, 0 or 1 by ordinary
ordering; if either source is not an exact constant of the declared width
the destination becomes Top. -/
theorem c3_compare_semantics (cfg : Config) (fm : FloatModel)
    (inst : IRInstruction) (state : ConstPropEnvironment) :
    ((inst.opcode = .OPCODE_CMPL_FLOAT ∨ inst.opcode = .OPCODE_CMPG_FLOAT) →
      (∀ lv rv, get_constant_value_narrow state (inst.src 0) = some lv →
          get_constant_value_narrow state (inst.src 1) = some rv →
        (((fm.decodeFloat lv).isnan = true ∨
            (fm.decodeFloat rv).isnan = true) →
          analyze_instruction cfg fm inst state =
            ConstPropEnvUtil.set_narrow state inst.dest
              (if inst.opcode = .OPCODE_CMPL_FLOAT then -1 else 1)) ∧
        (∀ lq rq, fm.decodeFloat lv = .fin lq → fm.decodeFloat rv = .fin rq →
          analyze_instruction cfg fm inst state =
            ConstPropEnvUtil.set_narrow state inst.dest
              (if rq < lq then 1 else if lq = rq then 0 else -1))) ∧
      ((get_constant_value_narrow state (inst.src 0) = none ∨
          get_constant_value_narrow state (inst.src 1) = none) →
        analyze_instruction cfg fm inst state =
          ConstPropEnvUtil.set_top state inst.dest false)) ∧
    ((inst.opcode = .OPCODE_CMPL_DOUBLE ∨
        inst.opcode = .OPCODE_CMPG_DOUBLE) →
      (∀ lv rv, get_constant_value_wide state (inst.src 0) = some lv →
          get_constant_value_wide state (inst.src 1) = some rv →
        (((fm.decodeDouble lv).isnan = true ∨
            (fm.decodeDouble rv).isnan = true) →
          analyze_instruction cfg fm inst state =
            ConstPropEnvUtil.set_narrow state inst.dest
              (if inst.opcode = .OPCODE_CMPL_DOUBLE then -1 else 1)) ∧
        (∀ lq rq, fm.decodeDouble lv = .fin lq →
            fm.decodeDouble rv = .fin rq →
          analyze_instruction cfg fm inst state =
            ConstPropEnvUtil.set_narrow state inst.dest
              (if rq < lq then 1 else if lq = rq then 0 else -1))) ∧
      ((get_constant_value_wide state (inst.src 0) = none ∨
          get_constant_value_wide state (inst.src 1) = none) →
        analyze_instruction cfg fm inst state =
          ConstPropEnvUtil.set_top state inst.dest false)) ∧
    (inst.opcode = .OPCODE_CMP_LONG →
      (∀ lv rv, get_constant_value_wide state (inst.src 0) = some lv →
          get_constant_value_wide state (inst.src 1) = some rv →
        analyze_instruction cfg fm inst state =
          ConstPropEnvUtil.set_narrow state inst.dest
            (if rv < lv then 1 else if lv = rv then 0 else -1)) ∧
      ((get_constant_value_wide state (inst.src 0) = none ∨
          get_constant_value_wide state (inst.src 1) = none) →
        analyze_instruction cfg fm inst state =
          ConstPropEnvUtil.set_top state inst.dest false)) := by
  refine ⟨fun hop => ?_, fun hop => ?_, fun hop => ?_⟩
  · refine ⟨fun lv rv hl hr => ⟨fun hnan => ?_, fun lq rq hlq hrq => ?_⟩,
      fun hn => ?_⟩
    · rcases hop with h | h <;> rcases hnan with hnan | hnan <;>
        simp [analyze_instruction, h, analyze_compare, hl, hr, hnan,
          is_compare_floating, is_less_than_bias]
    · rcases hop with h | h <;>
        simp [analyze_instruction, h, analyze_compare, hl, hr, hlq, hrq,
          fgt, feq, FPVal.isnan, is_compare_floating]
    · rcases hop with h | h <;> rcases hn with hn | hn <;>
        cases h0 : get_constant_value_narrow state (inst.src 0) <;>
        simp_all [analyze_instruction, h, analyze_compare]
  · refine ⟨fun lv rv hl hr => ⟨fun hnan => ?_, fun lq rq hlq hrq => ?_⟩,
      fun hn => ?_⟩
    · rcases hop with h | h <;> rcases hnan with hnan | hnan <;>
        simp [analyze_instruction, h, analyze_compare, hl, hr, hnan,
          is_compare_floating, is_less_than_bias]
    · rcases hop with h | h <;>
        simp [analyze_instruction, h, analyze_compare, hl, hr, hlq, hrq,
          fgt, feq, FPVal.isnan, is_compare_floating]
    · rcases hop with h | h <;> rcases hn with hn | hn <;>
        cases h0 : get_constant_value_wide state (inst.src 0) <;>
        simp_all [analyze_instruction, h, analyze_compare]
  · refine ⟨fun lv rv hl hr => ?_, fun hn => ?_⟩
    · simp [analyze_instruction, hop, analyze_compare, hl, hr,
        fgt, feq, FPVal.isnan, is_compare_floating]
    · rcases hn with hn | hn <;>
        cases h0 : get_constant_value_wide state (inst.src 0) <;>
        simp_all [analyze_instruction, hop, analyze_compare]

/-- Witness for C3: with a decoder sending the canonical NaN bit pattern to
NaN and every other pattern to its numeric value, a CMPL_FLOAT whose left
source holds the NaN pattern writes -1; a CMPL_FLOAT on the constants 3 and
7 writes -1 by ordering; and a CMPL_FLOAT whose right source is Top makes
the destination Top. -/
theorem c3_compare_semantics_witness :
    analyze_instruction ⟨false, false⟩
        ⟨fun v => if v = 2143289344 then .nan else .fin (v : ℚ),
         fun v => .fin (v : ℚ)⟩
        { opcode := .OPCODE_CMPL_FLOAT, srcs := [0, 1], dest := 2,
          literal := 0, dests_size := 1, dest_is_wide := false }
        ⟨false, fun r => if r = 0 then .narrowConst 2143289344
          else .narrowConst 0⟩ =
      ConstPropEnvUtil.set_narrow
        ⟨false, fun r => if r = 0 then .narrowConst 2143289344
          else .narrowConst 0⟩ 2 (-1) ∧
    analyze_instruction ⟨false, false⟩
        ⟨fun v => if v = 2143289344 then .nan else .fin (v : ℚ),
         fun v => .fin (v : ℚ)⟩
        { opcode := .OPCODE_CMPL_FLOAT, srcs := [0, 1], dest := 2,
          literal := 0, dests_size := 1, dest_is_wide := false }
        ⟨false, fun r => if r = 0 then .narrowConst 3
          else .narrowConst 7⟩ =
      ConstPropEnvUtil.set_narrow
        ⟨false, fun r => if r = 0 then .narrowConst 3
          else .narrowConst 7⟩ 2 (-1) ∧
    analyze_instruction ⟨false, false⟩
        ⟨fun v => if v = 2143289344 then .nan else .fin (v : ℚ),
         fun v => .fin (v : ℚ)⟩
        { opcode := .OPCODE_CMPL_FLOAT, srcs := [0, 1], dest := 2,
          literal := 0, dests_size := 1, dest_is_wide := false }
        ⟨false, fun r => if r = 0 then .narrowConst 3 else .top⟩ =
      ConstPropEnvUtil.set_top
        ⟨false, fun r => if r = 0 then .narrowConst 3 else .top⟩
        2 false := by
  refine ⟨?_, ?_, ?_⟩
  · have h := (((c3_compare_semantics ⟨false, false⟩
      ⟨fun v => if v = 2143289344 then .nan else .fin (v : ℚ),
       fun v => .fin (v : ℚ)⟩
      { opcode := .OPCODE_CMPL_FLOAT, srcs := [0, 1], dest := 2,
        literal := 0, dests_size := 1, dest_is_wide := false }
      ⟨false, fun r => if r = 0 then .narrowConst 2143289344
        else .narrowConst 0⟩).1 (Or.inl rfl)).1
      2143289344 0 (by decide) (by decide)).1 (Or.inl (by decide))
    simpa using h
  · have h := (((c3_compare_semantics ⟨false, false⟩
      ⟨fun v => if v = 2143289344 then .nan else .fin (v : ℚ),
       fun v => .fin (v : ℚ)⟩
      { opcode := .OPCODE_CMPL_FLOAT, srcs := [0, 1], dest := 2,
        literal := 0, dests_size := 1, dest_is_wide := false }
      ⟨false, fun r => if r = 0 then .narrowConst 3
        else .narrowConst 7⟩).1 (Or.inl rfl)).1
      3 7 (by decide) (by decide)).2 3 7 (by decide) (by decide)
    norm_num at h
    exact h
  · exact ((c3_compare_semantics ⟨false, false⟩
      ⟨fun v => if v = 2143289344 then .nan else .fin (v : ℚ),
       fun v => .fin (v : ℚ)⟩
      { opcode := .OPCODE_CMPL_FLOAT, srcs := [0, 1], dest := 2,
        literal := 0, dests_size := 1, dest_is_wide := false }
      ⟨false, fun r => if r = 0 then .narrowConst 3 else .top⟩).1
      (Or.inl rfl)).2 (Or.inr (by decide))

end RedexLCP

namespace RedexLCP

/-- C6: any instruction whose opcode is outside the specially handled set
(const loads, moves, compares, and add-with-immediate only while folding is
enabled) makes its destination Top at the destination width when it has one,
and leaves the environment completely unchanged when it has none; with
folding disabled the add-with-immediate opcodes fall through to this default
path. -/
theorem c6_default_top (cfg : Config) (fm : FloatModel)
    (inst : IRInstruction) (state : ConstPropEnvironment)
    (h : handled_opcode cfg inst.opcode = false) :
    (inst.dests_size ≠ 0 →
      analyze_instruction cfg fm inst state =
        ConstPropEnvUtil.set_top state inst.dest inst.dest_is_wide) ∧
    (inst.dests_size = 0 →
      analyze_instruction cfg fm inst state = state) := by
  have hd : analyze_instruction cfg fm inst state =
      analyze_default inst state := by
    cases hop : inst.opcode <;> simp_all [handled_opcode, analyze_instruction]
  rw [hd]
  constructor
  · intro hn; simp [analyze_default, hn]
  · intro hz; simp [analyze_default, hz]

/-- Witness for C6: with folding disabled, an ADD_INT_LIT8 with a constant
source takes the default path and its destination becomes Top; a
RETURN_VOID, which has no destination, leaves the environment unchanged. -/
theorem c6_default_top_witness :
    analyze_instruction ⟨false, false⟩ ⟨fun _ => .nan, fun _ => .nan⟩
        { opcode := .OPCODE_ADD_INT_LIT8, srcs := [0], dest := 1,
          literal := 2, dests_size := 1, dest_is_wide := false }
        ⟨false, fun _ => .narrowConst 5⟩ =
      ConstPropEnvUtil.set_top ⟨false, fun _ => .narrowConst 5⟩ 1 false ∧
    analyze_instruction ⟨false, false⟩ ⟨fun _ => .nan, fun _ => .nan⟩
        { opcode := .OPCODE_RETURN_VOID, srcs := [], dest := 0,
          literal := 0, dests_size := 0, dest_is_wide := false }
        ⟨false, fun _ => .narrowConst 5⟩ =
      ⟨false, fun _ => .narrowConst 5⟩ := by
  constructor
  · exact (c6_default_top ⟨false, false⟩ ⟨fun _ => .nan, fun _ => .nan⟩
      { opcode := .OPCODE_ADD_INT_LIT8, srcs := [0], dest := 1,
        literal := 2, dests_size := 1, dest_is_wide := false }
      ⟨false, fun _ => .narrowConst 5⟩ (by decide)).1 (by decide)
  · exact (c6_default_top ⟨false, false⟩ ⟨fun _ => .nan, fun _ => .nan⟩
      { opcode := .OPCODE_RETURN_VOID, srcs := [], dest := 0,
        literal := 0, dests_size := 0, dest_is_wide := false }
      ⟨false, fun _ => .narrowConst 5⟩ (by decide)).2 rfl

/-- C7: a register copy propagates an exact constant of the matching width
(MOVE and MOVE_OBJECT narrow, MOVE_WIDE wide) into the destination; in every
other case, including a width mismatch such as a wide constant read by a
narrow move, the destination becomes Top of the width of the copy. -/
theorem c7_move_propagation (cfg : Config) (fm : FloatModel)
    (inst : IRInstruction) (state : ConstPropEnvironment) :
    ((inst.opcode = .OPCODE_MOVE ∨ inst.opcode = .OPCODE_MOVE_OBJECT) →
      (∀ v, state.regs (inst.src 0) = .narrowConst v →
        analyze_instruction cfg fm inst state =
          ConstPropEnvUtil.set_narrow state inst.dest v) ∧
      (ConstPropEnvUtil.is_narrow_constant state (inst.src 0) = false →
        analyze_instruction cfg fm inst state =
          ConstPropEnvUtil.set_top state inst.dest false)) ∧
    (inst.opcode = .OPCODE_MOVE_WIDE →
      (∀ v, state.regs (inst.src 0) = .wideConst v →
        analyze_instruction cfg fm inst state =
          ConstPropEnvUtil.set_wide state inst.dest v) ∧
      (ConstPropEnvUtil.is_wide_constant state (inst.src 0) = false →
        analyze_instruction cfg fm inst state =
          ConstPropEnvUtil.set_top state inst.dest true)) := by
  constructor
  · intro hop
    constructor
    · intro v hv
      rcases hop with h | h <;>
        simp [analyze_instruction, h, analyze_non_branch, idTransform,
          ConstPropEnvUtil.is_narrow_constant, hv,
          ConstPropEnvUtil.get_narrow]
    · intro hnc
      rcases hop with h | h <;>
        simp [analyze_instruction, h, analyze_non_branch, hnc]
  · intro hop
    constructor
    · intro v hv
      simp [analyze_instruction, hop, analyze_non_branch, idTransform,
        ConstPropEnvUtil.is_wide_constant, hv, ConstPropEnvUtil.get_wide,
        ConstPropEnvUtil.is_narrow_constant]
    · intro hnc
      cases hn : ConstPropEnvUtil.is_narrow_constant state (inst.src 0) <;>
        simp [analyze_instruction, hop, analyze_non_branch, hnc, hn]

/-- Witness for C7: a MOVE of the exact narrow constant 7 propagates 7; a
MOVE reading a register holding a wide constant (width mismatch) makes the
destination Top; a MOVE_WIDE of the exact wide constant 5 propagates 5. -/
theorem c7_move_propagation_witness :
    analyze_instruction ⟨false, true⟩ ⟨fun _ => .nan, fun _ => .nan⟩
        { opcode := .OPCODE_MOVE, srcs := [0], dest := 1, literal := 0,
          dests_size := 1, dest_is_wide := false }
        ⟨false, fun r => if r = 0 then .narrowConst 7 else .top⟩ =
      ConstPropEnvUtil.set_narrow
        ⟨false, fun r => if r = 0 then .narrowConst 7 else .top⟩ 1 7 ∧
    analyze_instruction ⟨false, true⟩ ⟨fun _ => .nan, fun _ => .nan⟩
        { opcode := .OPCODE_MOVE, srcs := [0], dest := 1, literal := 0,
          dests_size := 1, dest_is_wide := false }
        ⟨false, fun r => if r = 0 then .wideConst 7 else .top⟩ =
      ConstPropEnvUtil.set_top
        ⟨false, fun r => if r = 0 then .wideConst 7 else .top⟩ 1 false ∧
    analyze_instruction ⟨false, true⟩ ⟨fun _ => .nan, fun _ => .nan⟩
        { opcode := .OPCODE_MOVE_WIDE, srcs := [0], dest := 1, literal := 0,
          dests_size := 1, dest_is_wide := true }
        ⟨false, fun r => if r = 0 then .wideConst 5 else .top⟩ =
      ConstPropEnvUtil.set_wide
        ⟨false, fun r => if r = 0 then .wideConst 5 else .top⟩ 1 5 := by
  refine ⟨?_, ?_, ?_⟩
  · exact ((c7_move_propagation ⟨false, true⟩ ⟨fun _ => .nan, fun _ => .nan⟩
      { opcode := .OPCODE_MOVE, srcs := [0], dest := 1, literal := 0,
        dests_size := 1, dest_is_wide := false }
      ⟨false, fun r => if r = 0 then .narrowConst 7 else .top⟩).1
      (Or.inl rfl)).1 7 (by decide)
  · exact ((c7_move_propagation ⟨false, true⟩ ⟨fun _ => .nan, fun _ => .nan⟩
      { opcode := .OPCODE_MOVE, srcs := [0], dest := 1, literal := 0,
        dests_size := 1, dest_is_wide := false }
      ⟨false, fun r => if r = 0 then .wideConst 7 else .top⟩).1
      (Or.inl rfl)).2 (by decide)
  · exact ((c7_move_propagation ⟨false, true⟩ ⟨fun _ => .nan, fun _ => .nan⟩
      { opcode := .OPCODE_MOVE_WIDE, srcs := [0], dest := 1, literal := 0,
        dests_size := 1, dest_is_wide := true }
      ⟨false, fun r => if r = 0 then .wideConst 5 else .top⟩).2
      rfl).1 5 (by decide)

end RedexLCP

namespace RedexLCP

/-- C8: a branch classified always taken appends exactly one record pairing
the original branch with a newly constructed GOTO (the target stays with the
original instruction in the pair; the apply step reuses it), a branch
classified never taken appends one record pairing it with a NOP, and in both
cases the branches-folded counter grows by one; an undetermined branch
appends nothing and leaves the counter unchanged.  The instruction stream is
never touched: simplify_branch only extends the replacement list. -/
theorem c8_branch_rewriting (st : LCPState) (inst : IRInstruction)
    (current_state : ConstPropEnvironment) :
    (eval_if inst current_state = .ok (some true) →
      simplify_branch st inst current_state = .ok
        { st with
          branch_propagated := st.branch_propagated + 1,
          insn_replacements := st.insn_replacements ++
            [(inst, IRInstruction.mkNew .OPCODE_GOTO)] }) ∧
    (eval_if inst current_state = .ok (some false) →
      simplify_branch st inst current_state = .ok
        { st with
          branch_propagated := st.branch_propagated + 1,
          insn_replacements := st.insn_replacements ++
            [(inst, IRInstruction.mkNew .OPCODE_NOP)] }) ∧
    (eval_if inst current_state = .ok none →
      simplify_branch st inst current_state = .ok st) := by
  refine ⟨fun h => ?_, fun h => ?_, fun h => ?_⟩ <;>
    simp [simplify_branch, h]

/-- Witness for C8: with left 10 and right 20, IF_LT is always taken and is
recorded as a GOTO with the counter moving from 0 to 1; with left 20 and
right 10 it is never taken and is recorded as a NOP; with unknown operands
nothing is recorded. -/
theorem c8_branch_rewriting_witness :
    simplify_branch ⟨[], 0, 0⟩
        { opcode := .OPCODE_IF_LT, srcs := [0, 1], dest := 0, literal := 0,
          dests_size := 0, dest_is_wide := false }
        ⟨false, fun r => if r = 0 then .narrowConst 10
          else .narrowConst 20⟩ =
      .ok ⟨[({ opcode := .OPCODE_IF_LT, srcs := [0, 1], dest := 0,
               literal := 0, dests_size := 0, dest_is_wide := false },
        IRInstruction.mkNew .OPCODE_GOTO)], 1, 0⟩ ∧
    simplify_branch ⟨[], 0, 0⟩
        { opcode := .OPCODE_IF_LT, srcs := [0, 1], dest := 0, literal := 0,
          dests_size := 0, dest_is_wide := false }
        ⟨false, fun r => if r = 0 then .narrowConst 20
          else .narrowConst 10⟩ =
      .ok ⟨[({ opcode := .OPCODE_IF_LT, srcs := [0, 1], dest := 0,
               literal := 0, dests_size := 0, dest_is_wide := false },
        IRInstruction.mkNew .OPCODE_NOP)], 1, 0⟩ ∧
    simplify_branch ⟨[], 0, 0⟩
        { opcode := .OPCODE_IF_LT, srcs := [0, 1], dest := 0, literal := 0,
          dests_size := 0, dest_is_wide := false }
        ⟨false, fun _ => .top⟩ = .ok ⟨[], 0, 0⟩ := by
  refine ⟨?_, ?_, ?_⟩
  · exact (c8_branch_rewriting ⟨[], 0, 0⟩
      { opcode := .OPCODE_IF_LT, srcs := [0, 1], dest := 0, literal := 0,
        dests_size := 0, dest_is_wide := false }
      ⟨false, fun r => if r = 0 then .narrowConst 10
        else .narrowConst 20⟩).1 rfl
  · exact (c8_branch_rewriting ⟨[], 0, 0⟩
      { opcode := .OPCODE_IF_LT, srcs := [0, 1], dest := 0, literal := 0,
        dests_size := 0, dest_is_wide := false }
      ⟨false, fun r => if r = 0 then .narrowConst 20
        else .narrowConst 10⟩).2.1 rfl
  · exact (c8_branch_rewriting ⟨[], 0, 0⟩
      { opcode := .OPCODE_IF_LT, srcs := [0, 1], dest := 0, literal := 0,
        dests_size := 0, dest_is_wide := false }
      ⟨false, fun _ => .top⟩).2.2 rfl

/-- C9: for a MOVE or MOVE_WIDE with replace_moves_with_consts on, and an
add-with-immediate with fold_arithmetic on, when the destination register
holds an exact constant of the matching width in the environment after the
instruction, the rewriter appends one record pairing the instruction with a
literal load (CONST narrow, CONST_WIDE wide) carrying the same destination
and that value and bumps the constants-materialized counter by one;
otherwise, or with the corresponding option off, nothing is appended and the
counter is unchanged. -/
theorem c9_constant_materialization (cfg : Config) (st : LCPState)
    (inst : IRInstruction) (current_state : ConstPropEnvironment) :
    (((inst.opcode = .OPCODE_MOVE ∨ inst.opcode = .OPCODE_MOVE_WIDE) ∧
        cfg.replace_moves_with_consts = false) →
      simplify_instruction cfg st inst current_state = .ok st) ∧
    (((inst.opcode = .OPCODE_ADD_INT_LIT8 ∨
        inst.opcode = .OPCODE_ADD_INT_LIT16) ∧
        cfg.fold_arithmetic = false) →
      simplify_instruction cfg st inst current_state = .ok st) ∧
    (((inst.opcode = .OPCODE_MOVE ∧ cfg.replace_moves_with_consts = true) ∨
        ((inst.opcode = .OPCODE_ADD_INT_LIT8 ∨
          inst.opcode = .OPCODE_ADD_INT_LIT16) ∧
          cfg.fold_arithmetic = true)) →
      (∀ v, current_state.regs inst.dest = .narrowConst v →
        simplify_instruction cfg st inst current_state = .ok
          { st with
            insn_replacements := st.insn_replacements ++
              [(inst, ((IRInstruction.mkNew .OPCODE_CONST).set_literal
                v).set_dest inst.dest)],
            materialized_consts := st.materialized_consts + 1 }) ∧
      (ConstPropEnvUtil.is_narrow_constant current_state inst.dest = false →
        simplify_instruction cfg st inst current_state = .ok st)) ∧
    ((inst.opcode = .OPCODE_MOVE_WIDE ∧
        cfg.replace_moves_with_consts = true) →
      (∀ v, current_state.regs inst.dest = .wideConst v →
        simplify_instruction cfg st inst current_state = .ok
          { st with
            insn_replacements := st.insn_replacements ++
              [(inst, ((IRInstruction.mkNew .OPCODE_CONST_WIDE).set_literal
                v).set_dest inst.dest)],
            materialized_consts := st.materialized_consts + 1 }) ∧
      (ConstPropEnvUtil.is_wide_constant current_state inst.dest = false →
        simplify_instruction cfg st inst current_state = .ok st)) := by
  refine ⟨fun h => ?_, fun h => ?_, fun h => ⟨fun v hv => ?_, fun hn => ?_⟩,
    fun h => ⟨fun v hv => ?_, fun hn => ?_⟩⟩
  · rcases h with ⟨h1 | h1, h2⟩ <;> simp [simplify_instruction, h1, h2]
  · rcases h with ⟨h1 | h1, h2⟩ <;> simp [simplify_instruction, h1, h2]
  · rcases h with ⟨h1, h2⟩ | ⟨h1 | h1, h2⟩ <;>
      simp [simplify_instruction, h1, h2, simplify_non_branch,
        ConstPropEnvUtil.is_narrow_constant, hv, ConstPropEnvUtil.get_narrow]
  · rcases h with ⟨h1, h2⟩ | ⟨h1 | h1, h2⟩ <;>
      simp [simplify_instruction, h1, h2, simplify_non_branch, hn]
  · rcases h with ⟨h1, h2⟩
    cases hnarrow : ConstPropEnvUtil.is_narrow_constant current_state
        inst.dest <;>
      simp [simplify_instruction, h1, h2, simplify_non_branch,
        ConstPropEnvUtil.is_wide_constant, hv, ConstPropEnvUtil.get_wide,
        hnarrow]
  · rcases h with ⟨h1, h2⟩
    cases hnarrow : ConstPropEnvUtil.is_narrow_constant current_state
        inst.dest <;>
      simp [simplify_instruction, h1, h2, simplify_non_branch, hn, hnarrow]

/-- Witness for C9: a MOVE whose destination now holds the exact constant 7
is recorded as a CONST load of 7 into that destination with the counter
moving from 0 to 1; with the option off nothing is recorded. -/
theorem c9_constant_materialization_witness :
    simplify_instruction ⟨false, true⟩ ⟨[], 0, 0⟩
        { opcode := .OPCODE_MOVE, srcs := [0], dest := 1, literal := 0,
          dests_size := 1, dest_is_wide := false }
        ⟨false, fun _ => .narrowConst 7⟩ =
      .ok ⟨[({ opcode := .OPCODE_MOVE, srcs := [0], dest := 1,
               literal := 0, dests_size := 1, dest_is_wide := false },
        ((IRInstruction.mkNew .OPCODE_CONST).set_literal 7).set_dest 1)],
        0, 1⟩ ∧
    simplify_instruction ⟨false, false⟩ ⟨[], 0, 0⟩
        { opcode := .OPCODE_MOVE, srcs := [0], dest := 1, literal := 0,
          dests_size := 1, dest_is_wide := false }
        ⟨false, fun _ => .narrowConst 7⟩ = .ok ⟨[], 0, 0⟩ := by
  constructor
  · exact ((c9_constant_materialization ⟨false, true⟩ ⟨[], 0, 0⟩
      { opcode := .OPCODE_MOVE, srcs := [0], dest := 1, literal := 0,
        dests_size := 1, dest_is_wide := false }
      ⟨false, fun _ => .narrowConst 7⟩).2.2.1
      (Or.inl ⟨rfl, rfl⟩)).1 7 (by decide)
  · exact (c9_constant_materialization ⟨false, false⟩ ⟨[], 0, 0⟩
      { opcode := .OPCODE_MOVE, srcs := [0], dest := 1, literal := 0,
        dests_size := 1, dest_is_wide := false }
      ⟨false, fun _ => .narrowConst 7⟩).1 ⟨Or.inl rfl, rfl⟩

/-- C10: MOVE_OBJECT is analyzed as a narrow copy, so its destination can
become an exact narrow constant in the environment, yet the simplifier has
no case for it: simplify_instruction on a MOVE_OBJECT returns the rewriter
state unchanged whatever the options and the environment say, so no record
is appended and the constants-materialized counter stays. -/
theorem c10_move_object_asymmetry (cfg : Config) (fm : FloatModel)
    (st : LCPState) (inst : IRInstruction)
    (state post : ConstPropEnvironment)
    (hop : inst.opcode = .OPCODE_MOVE_OBJECT) :
    (∀ v, state.regs (inst.src 0) = .narrowConst v →
      analyze_instruction cfg fm inst state =
        ConstPropEnvUtil.set_narrow state inst.dest v) ∧
    simplify_instruction cfg st inst post = .ok st := by
  constructor
  · intro v hv
    simp [analyze_instruction, hop, analyze_non_branch, idTransform,
      ConstPropEnvUtil.is_narrow_constant, hv, ConstPropEnvUtil.get_narrow]
  · simp [simplify_instruction, hop]

/-- Witness for C10: a MOVE_OBJECT of the exact constant 7 propagates the
constant in the analyzer, and even with replace_moves_with_consts on the
simplifier appends nothing for it. -/
theorem c10_move_object_asymmetry_witness :
    analyze_instruction ⟨true, true⟩ ⟨fun _ => .nan, fun _ => .nan⟩
        { opcode := .OPCODE_MOVE_OBJECT, srcs := [0], dest := 1,
          literal := 0, dests_size := 1, dest_is_wide := false }
        ⟨false, fun r => if r = 0 then .narrowConst 7 else .top⟩ =
      ConstPropEnvUtil.set_narrow
        ⟨false, fun r => if r = 0 then .narrowConst 7 else .top⟩ 1 7 ∧
    simplify_instruction ⟨true, true⟩ ⟨[], 0, 0⟩
        { opcode := .OPCODE_MOVE_OBJECT, srcs := [0], dest := 1,
          literal := 0, dests_size := 1, dest_is_wide := false }
        ⟨false, fun _ => .narrowConst 7⟩ = .ok ⟨[], 0, 0⟩ := by
  constructor
  · exact (c10_move_object_asymmetry ⟨true, true⟩
      ⟨fun _ => .nan, fun _ => .nan⟩ ⟨[], 0, 0⟩
      { opcode := .OPCODE_MOVE_OBJECT, srcs := [0], dest := 1,
        literal := 0, dests_size := 1, dest_is_wide := false }
      ⟨false, fun r => if r = 0 then .narrowConst 7 else .top⟩
      ⟨false, fun _ => .narrowConst 7⟩ rfl).1 7 (by decide)
  · exact (c10_move_object_asymmetry ⟨true, true⟩
      ⟨fun _ => .nan, fun _ => .nan⟩ ⟨[], 0, 0⟩
      { opcode := .OPCODE_MOVE_OBJECT, srcs := [0], dest := 1,
        literal := 0, dests_size := 1, dest_is_wide := false }
      ⟨false, fun r => if r = 0 then .narrowConst 7 else .top⟩
      ⟨false, fun _ => .narrowConst 7⟩ rfl).2

end RedexLCP
